import Mathlib

/-!
Shallow embedding of the Woodmont Industrial News Briefing ingestion code:
the hostile-source bypass subsystem (src/feeds/playwright-fallback.ts), the
fetcher integration layer with its circuit breaker
(src/feeds/fetcher-integration.ts), the client-side article normalization
(`transformArticle` in the utils module) and the static build's
deduplication step (`buildStaticRSS`).

File-backed JSON stores are modelled as total functions from keys to
optional records; the wall clock (`Date.now()`, `getTodayString()`) and the
headless-browser session are explicit parameters.  JavaScript string
primitives (`includes`, `toLowerCase`, `||` on possibly-missing string
fields, regex matches) are modelled on character lists.
-/

namespace Woodmont

/-- Substring occurrence on character lists: `listContainsSub needle hay` is
true when `needle` occurs contiguously inside `hay`.  It models JavaScript
`hay.includes(needle)`. -/
def listContainsSub (needle : List Char) : List Char → Bool
  | [] => needle.isEmpty
  | c :: t => needle.isPrefixOf (c :: t) || listContainsSub needle t

/-- JavaScript `s.includes(sub)`. -/
def jsIncludes (s sub : String) : Bool :=
  listContainsSub sub.toList s.toList

/-- JavaScript `a || b` where `a` is a possibly-missing string field: a
missing field and the empty string are both falsy. -/
def jsOrS (a : Option String) (b : String) : String :=
  match a with
  | some s => if s = "" then b else s
  | none => b

/-- JavaScript truthiness of a possibly-missing string value. -/
def jsTruthyS : Option String → Bool
  | some s => s != ""
  | none => false

/-- JavaScript `s.toLowerCase()` as a character list (the embedded code only
compares ASCII text). -/
def lowerChars (s : String) : List Char :=
  s.toList.map Char.toLower

/-- JavaScript `s.toLowerCase()` as a string. -/
def lowerStr (s : String) : String :=
  String.mk (lowerChars s)

namespace Playwright

/-- `PLAYWRIGHT_ALLOWLIST` (src/feeds/playwright-fallback.ts lines 21-26). -/
def PLAYWRIGHT_ALLOWLIST : List String :=
  ["connectcre.com", "bizjournals.com", "commercialsearch.com", "traded.co"]

/-- `MAX_RUNS_PER_DOMAIN_PER_DAY` (line 29). -/
def MAX_RUNS_PER_DOMAIN_PER_DAY : Nat := 10

/-- `CACHE_TTL_MS`: 12 hours in milliseconds (line 32). -/
def CACHE_TTL_MS : Nat := 12 * 60 * 60 * 1000

/-- A browser cookie, as much of Playwright's `Cookie` as the code reads. -/
structure Cookie where
  name : String
  value : String
deriving DecidableEq

/-- One domain's entry of `cookies.json` (`CookieStore` interface). -/
structure CookieRecord where
  cookies : List Cookie
  savedAt : Nat
deriving DecidableEq

/-- One URL's entry of `feed-cache.json` (`FeedCache` interface). -/
structure CacheEntry where
  content : String
  fetchedAt : Nat
  expiresAt : Nat
deriving DecidableEq

/-- One domain's entry of `rate-limits.json` (`RateLimitStore` interface):
a `YYYY-MM-DD` date string and the invocation count for that day. -/
structure RateRecord where
  date : String
  count : Nat
deriving DecidableEq

/-- The cookie store keyed by domain. -/
def CookieStore : Type := String → Option CookieRecord

/-- The feed cache keyed by exact URL. -/
def FeedCache : Type := String → Option CacheEntry

/-- The rate-limit ledger keyed by domain. -/
def RateLimitStore : Type := String → Option RateRecord

/-- The indicator keywords of `isCloudflareChallenge` (lines 155-164). -/
def cfIndicators : List String :=
  ["just a moment", "checking your browser", "cf-browser-verification",
   "challenge-platform", "cloudflare", "cf_clearance", "turnstile", "ray id"]

/-- `isCloudflareChallenge(body, status?)` (lines 151-175): a Cloudflare
indicator keyword must be present AND the page must be challenge-shaped HTML
or the HTTP status must be 403. -/
def isCloudflareChallenge (body : String) (status : Option Nat) : Bool :=
  if body = "" then false
  else
    let lower := lowerStr body
    let hasIndicator := cfIndicators.any (fun i => jsIncludes lower i)
    let isChallengeHTML := jsIncludes lower "<!doctype" &&
      (jsIncludes lower "just a moment" || jsIncludes lower "checking your browser" ||
        jsIncludes lower "challenge")
    hasIndicator && (isChallengeHTML || status == some 403)

/-- Drop everything through the first `"://"`; `none` when the URL has no
scheme separator, modelling `new URL(url)` throwing on unparseable input. -/
def dropScheme : List Char → Option (List Char)
  | ':' :: '/' :: '/' :: rest => some rest
  | _ :: rest => dropScheme rest
  | [] => none

/-- The regex replace `/^www\./` with `""` of `getDomain`. -/
def stripWww : List Char → List Char
  | 'w' :: 'w' :: 'w' :: '.' :: rest => rest
  | l => l

/-- `getDomain(url)` (lines 181-188): the URL's hostname — lowercased, path,
query and port removed — with a leading `www.` stripped; `""` when the URL
does not parse.  `new URL` is a platform primitive; its hostname extraction
is modelled here directly. -/
def getDomain (url : String) : String :=
  match dropScheme url.toList with
  | none => ""
  | some rest =>
      let hostPort := rest.takeWhile (fun c => c != '/' && c != '?' && c != '#')
      let host := hostPort.takeWhile (fun c => c != ':')
      String.mk (stripWww (host.map Char.toLower))

/-- `isAllowlisted(url)` (lines 190-193): some allowlisted domain occurs as a
substring of the (www-stripped) hostname. -/
def isAllowlisted (url : String) : Bool :=
  PLAYWRIGHT_ALLOWLIST.any (fun allowed => jsIncludes (getDomain url) allowed)

/-- `checkRateLimit(domain)` (lines 203-213).  The ledger and today's date
string are explicit parameters (the code reads them from disk and the
clock). -/
def checkRateLimit (limits : RateLimitStore) (today domain : String) : Bool :=
  match limits domain with
  | none => true
  | some r => if r.date != today then true else decide (r.count < MAX_RUNS_PER_DOMAIN_PER_DAY)

/-- `incrementRateLimit(domain)` (lines 215-226). -/
def incrementRateLimit (limits : RateLimitStore) (today domain : String) : RateLimitStore :=
  fun d =>
    if d = domain then
      match limits domain with
      | none => some ⟨today, 1⟩
      | some r => if r.date != today then some ⟨today, 1⟩ else some ⟨r.date, r.count + 1⟩
    else limits d

/-- `getRateLimitStatus(domain)` (lines 228-239): remaining and limit. -/
def getRateLimitStatus (limits : RateLimitStore) (today domain : String) : Int × Nat :=
  let used : Nat :=
    match limits domain with
    | some r => if r.date = today then r.count else 0
    | none => 0
  ((MAX_RUNS_PER_DOMAIN_PER_DAY : Int) - used, MAX_RUNS_PER_DOMAIN_PER_DAY)

/-- `getCachedContent(url)` (lines 245-255): an entry is served only while
`entry.expiresAt > Date.now()`. -/
def getCachedContent (cache : FeedCache) (url : String) (now : Nat) : Option String :=
  match cache url with
  | some entry => if now < entry.expiresAt then some entry.content else none
  | none => none

/-- `setCachedContent(url, content)` (lines 257-275): prune entries already
expired at `now`, then store the new entry with a 12-hour TTL. -/
def setCachedContent (cache : FeedCache) (url content : String) (now : Nat) : FeedCache :=
  fun u =>
    if u = url then some ⟨content, now, now + CACHE_TTL_MS⟩
    else
      match cache u with
      | some entry => if entry.expiresAt < now then none else some entry
      | none => none

/-- Suffix of `hay` from the first occurrence of `needle` on, modelling the
regex `/needle[\s\S]*$/`. -/
def suffixFromL (needle : List Char) : List Char → Option (List Char)
  | [] => if needle.isEmpty then some [] else none
  | c :: t => if needle.isPrefixOf (c :: t) then some (c :: t) else suffixFromL needle t

/-- Prefix of `hay` through the LAST occurrence of `endPat`, the greedy tail
of regexes such as `/<rss[\s\S]*<\/rss>/`. -/
def upToLastIncl (endPat : List Char) : List Char → Option (List Char)
  | [] => if endPat.isEmpty then some [] else none
  | c :: t =>
      match upToLastIncl endPat t with
      | some r => some (c :: r)
      | none => if endPat.isPrefixOf (c :: t) then some endPat else none

/-- JavaScript `content.match(/start[\s\S]*end/)?.[0]`: from the first
occurrence of `start` through the last occurrence of `end` (with the
patterns the code uses, an occurrence of `end` cannot overlap `start`). -/
def jsMatchGreedy (content start endPat : String) : Option String :=
  match suffixFromL start.toList content.toList with
  | none => none
  | some s1 =>
      match upToLastIncl endPat.toList s1 with
      | some r => some (String.mk r)
      | none => none

/-- The XML-fragment extraction on the success path of `playwrightFetchRSS`
(lines 502-506): `xmlMatch?.[0] || rssMatch?.[0] || feedMatch?.[0] ||
content`. -/
def extractXml (content : String) : String :=
  let xmlMatch := (suffixFromL "<?xml".toList content.toList).map String.mk
  let rssMatch := jsMatchGreedy content "<rss" "</rss>"
  let feedMatch := jsMatchGreedy content "<feed" "</feed>"
  jsOrS xmlMatch (jsOrS rssMatch (jsOrS feedMatch content))

/-- The three-marker feed-shape test
`content.includes('<?xml') || content.includes('<rss') ||
content.includes('<feed')` (lines 365, 398 and 500). -/
def hasFeedMarker3 (content : String) : Bool :=
  jsIncludes content "<?xml" || jsIncludes content "<rss" || jsIncludes content "<feed"

/-- The two-marker test of line 384, which omits `<feed`. -/
def hasFeedMarker2 (content : String) : Bool :=
  jsIncludes content "<?xml" || jsIncludes content "<rss"

/-- What the headless browser produces during one `fetchWithPlaywright`
session.  Playwright is a platform primitive, so one session is modelled by
the values its calls return: navigations may throw, `page.content()` reads
return whatever the browser rendered, `page.evaluate` may find a feed link,
and `context.cookies()` returns the cookies observed. -/
structure SessionOracle where
  initialNav : Except String Unit
  content1 : String
  content2 : String
  content3 : String
  rssLinkHref : Option String
  rssNav : Except String Unit
  rssContent : String
  altResults : List (Option String)
  finalCookies : List Cookie

/-- The alternate-URL loop (lines 393-406): each attempt either throws — the
exception is swallowed and the loop continues — or yields content, and the
first feed-shaped content replaces the current one. -/
def tryAlternates (fc : String) : List (Option String) → String
  | [] => fc
  | none :: rest => tryAlternates fc rest
  | some c :: rest => if hasFeedMarker3 c then c else tryAlternates fc rest

/-- `fetchWithPlaywright(url)` (lines 307-434): navigate, wait out the
challenge, hunt for feed-shaped content, then save ALL cookies of the
session to the cookie store keyed by domain and return the final content.
A navigation exception propagates as `Except.error` and — as in the source,
where the cookie save sits after the navigation code inside the `try` —
skips the cookie save. -/
def fetchWithPlaywright (cookieStore : CookieStore) (url : String) (o : SessionOracle)
    (now : Nat) : Except String (String × CookieStore) :=
  let domain := getDomain url
  match o.initialNav with
  | .error e => .error e
  | .ok _ =>
      -- lines 344-362: a challenge page only triggers extra waits; the
      -- content read after the waiting phase is `content2`, re-read as
      -- `content3` when the page still showed a challenge
      let fc0 := if isCloudflareChallenge o.content2 none then o.content3 else o.content2
      let searched : Except String String :=
        if hasFeedMarker3 fc0 then .ok fc0
        else
          let afterLink : Except String String :=
            match o.rssLinkHref with
            | some href =>
                if href = "" then .ok fc0
                else
                  match o.rssNav with
                  | .error e => .error e
                  | .ok _ => .ok o.rssContent
            | none => .ok fc0
          match afterLink with
          | .error e => .error e
          | .ok fc1 =>
              if hasFeedMarker2 fc1 then .ok fc1
              else .ok (tryAlternates fc1 o.altResults)
      match searched with
      | .error e => .error e
      | .ok finalContent =>
          let store' : CookieStore :=
            fun d => if d = domain then some ⟨o.finalCookies, now⟩ else cookieStore d
          .ok (finalContent, store')

/-- The persistent state the bypass subsystem owns: cookie store, feed cache
and rate-limit ledger. -/
structure PWState where
  cookies : CookieStore
  cache : FeedCache
  limits : RateLimitStore

/-- The `originalResponse` argument of `playwrightFetchRSS`. -/
structure OrigResponse where
  status : Nat
  body : String
deriving DecidableEq

/-- Result of `playwrightFetchRSS`, one constructor per return site of the
source. -/
inductive PWResult where
  | success (content : String) (fromCache : Bool)
  | notAllowlisted (domain : String)
  | notAChallenge
  | rateLimited (remaining : Int) (limit : Nat)
  | challengeUnsolved
  | notAFeed
  | fetchError (msg : String)
deriving DecidableEq

/-- Rate-limit check, rate-limit increment, browser session and result
classification of `playwrightFetchRSS` (lines 477-545).  The rate-limit
unit is consumed (`incrementRateLimit`) before `fetchWithPlaywright` runs,
so a failed session still counts. -/
def pwRateAndSession (st : PWState) (url : String) (o : SessionOracle) (now : Nat)
    (today : String) : PWResult × PWState :=
  let domain := getDomain url
  let rateStatus := getRateLimitStatus st.limits today domain
  if checkRateLimit st.limits today domain then
    let st1 : PWState := { st with limits := incrementRateLimit st.limits today domain }
    match fetchWithPlaywright st1.cookies url o now with
    | .error e => (.fetchError e, st1)
    | .ok (content, cookies') =>
        let st2 : PWState := { st1 with cookies := cookies' }
        if hasFeedMarker3 content then
          let xmlContent := extractXml content
          (.success xmlContent false,
            { st2 with cache := setCachedContent st2.cache url xmlContent now })
        else if isCloudflareChallenge content none then (.challengeUnsolved, st2)
        else (.notAFeed, st2)
  else (.rateLimited rateStatus.1 rateStatus.2, st)

/-- Cache lookup of `playwrightFetchRSS` (lines 466-475): a cached string is
served only when truthy (`if (cached)`), then the call falls through to the
rate-limit check and session. -/
def pwAfterChecks (st : PWState) (url : String) (o : SessionOracle) (now : Nat)
    (today : String) : PWResult × PWState :=
  match getCachedContent st.cache url now with
  | some cached =>
      if cached = "" then pwRateAndSession st url o now today
      else (.success cached true, st)
  | none => pwRateAndSession st url o now today

/-- `playwrightFetchRSS(url, originalResponse?)` (lines 444-546): allowlist
check, challenge confirmation (only when an original response was passed),
then cache, rate limit and session. -/
def playwrightFetchRSS (st : PWState) (url : String) (orig : Option OrigResponse)
    (o : SessionOracle) (now : Nat) (today : String) : PWResult × PWState :=
  let domain := getDomain url
  if !(isAllowlisted url) then (.notAllowlisted domain, st)
  else
    match orig with
    | some r =>
        if !(isCloudflareChallenge r.body (some r.status)) then (.notAChallenge, st)
        else pwAfterChecks st url o now today
    | none => pwAfterChecks st url o now today

/-- Indicator-keyword containment as the specification states it: the body
contains one of the challenge indicator keywords (case-insensitively). -/
def HasIndicator (body : String) : Prop :=
  ∃ kw ∈ cfIndicators, kw.toList <:+: lowerChars body

/-- Challenge-shaped HTML as the specification states it: a doctype together
with challenge wording. -/
def ChallengeShapedHTML (body : String) : Prop :=
  "<!doctype".toList <:+: lowerChars body ∧
    ("just a moment".toList <:+: lowerChars body ∨
      "checking your browser".toList <:+: lowerChars body ∨
      "challenge".toList <:+: lowerChars body)

/-- Where the Source Fetch Stage sends a blocked response. -/
inductive FetchRoute where
  | bypass
  | breakerFailure
deriving DecidableEq

/-- Modelled from the spec: the Source Fetch Stage's routing decision for a
non-2xx response.  The fetch stage itself (`fetcher.ts` / `pipeline.ts`
stage 1) is not under src/; per spec section 4.1, a response the Challenge
Detector recognizes whose source domain is allowlisted is delegated to the
bypass runner instead of being recorded as a circuit-breaker failure.  The
detector and allowlist used here are the real ones from
playwright-fallback.ts. -/
def fetchStageRoute (url : String) (status : Nat) (body : String) : FetchRoute :=
  if isCloudflareChallenge body (some status) && isAllowlisted url then .bypass
  else .breakerFailure

/-- Repeated same-day invocations of `playwrightFetchRSS` with no original
response, threading the persistent state from call to call. -/
def pwIterate (url : String) (o : SessionOracle) (now : Nat) (today : String) :
    Nat → PWState → PWState
  | 0, st => st
  | n + 1, st => pwIterate url o now today n (playwrightFetchRSS st url none o now today).2

end Playwright

namespace Fetcher

/-- `CircuitBreakerState` (src/feeds/fetcher-integration.ts lines 38-43). -/
structure CircuitBreakerState where
  failureCount : Nat
  blockedUntil : Nat
  lastError : Option String
  last403Preview : Option String
deriving DecidableEq

/-- `BLOCKED_COOLDOWN_MS`: 24 hours (line 46). -/
def BLOCKED_COOLDOWN_MS : Nat := 24 * 60 * 60 * 1000

/-- `MAX_FAILURES_BEFORE_BLOCK` (line 47). -/
def MAX_FAILURES_BEFORE_BLOCK : Nat := 3

/-- A feed source entry of `RSS_FEEDS` (config.ts), as read by
`fetchAllRSSArticles`: the `enabled` flag may be absent. -/
structure FeedConfig where
  url : String
  name : String
  enabled : Option Bool
deriving DecidableEq

/-- An article as stored by the integration layer; only its identifier is
read there. -/
structure PipeArticle where
  id : String
deriving DecidableEq

/-- One entry of the pipeline's result list.  `processFeedsFullPipeline`
itself lives in pipeline.ts, outside src/; `fetchAllRSSArticles` only
consumes its per-feed results, which carry the feed, the articles kept, the
raw count and an optional error. -/
structure PipelineResult where
  feedUrl : String
  feedName : String
  articles : List PipeArticle
  rawCount : Nat
  error : Option String
deriving DecidableEq

/-- The circuit-breaker table, keyed by source URL (line 45). -/
def BreakerTable : Type := String → Option CircuitBreakerState

/-- The feeds `fetchAllRSSArticles` hands to the pipeline (lines 101-103):
`RSS_FEEDS.filter(f => f.enabled !== false)`.  The circuit-breaker table is
not consulted before fetching. -/
def enabledFeeds (feeds : List FeedConfig) : List FeedConfig :=
  feeds.filter (fun f => f.enabled != some false)

/-- The success half of the per-result breaker update (lines 113-121): the
reset sits inside the loop over the result's articles, so it fires only when
at least one article came back, and only on an already-existing entry. -/
def breakerAfterSuccess (cb : BreakerTable) (r : PipelineResult) : BreakerTable :=
  if r.articles.isEmpty then cb
  else
    match cb r.feedUrl with
    | none => cb
    | some s =>
        fun u =>
          if u = r.feedUrl then some { s with failureCount := 0, blockedUntil := 0 }
          else cb u

/-- The full circuit-breaker update `fetchAllRSSArticles` performs for one
pipeline result (lines 113-153): the per-article success reset, then — when
the result carries an error — increment the failure count and block the
source for 24 hours once it reaches `MAX_FAILURES_BEFORE_BLOCK`. -/
def applyBreakerUpdate (cb : BreakerTable) (now : Nat) (r : PipelineResult) : BreakerTable :=
  let afterSuccess := breakerAfterSuccess cb r
  match r.error with
  | none => afterSuccess
  | some msg =>
      let s0 := (afterSuccess r.feedUrl).getD ⟨0, 0, none, none⟩
      let s1 : CircuitBreakerState :=
        { s0 with failureCount := s0.failureCount + 1, lastError := some msg }
      let s2 :=
        if MAX_FAILURES_BEFORE_BLOCK ≤ s1.failureCount then
          { s1 with blockedUntil := now + BLOCKED_COOLDOWN_MS }
        else s1
      fun u => if u = r.feedUrl then some s2 else afterSuccess u

/-- The status field of the converted `FetchResult` (line 157): only `"ok"`
or `"error"`; the integration layer never produces a `CircuitOpen` result. -/
def resultStatus (r : PipelineResult) : String :=
  match r.error with
  | some _ => "error"
  | none => "ok"

end Fetcher

namespace Utils

/-- `item.author` in the feed JSON consumed by `transformArticle`: either a
plain string or an object with an optional `name`. -/
inductive AuthorField where
  | str (s : String)
  | obj (name : Option String)
deriving DecidableEq

/-- The fields of a feed.json / API item that `transformArticle` reads. -/
structure FeedItem where
  author : Option AuthorField
  tags : List String
  url : Option String
  link : Option String
  date_published : Option String
  pubDate : Option String
  content_text : Option String
  content_html : Option String
  description : Option String
  source : Option String
  publisher : Option String
  id : Option String
deriving DecidableEq

/-- The canonical fields `transformArticle` computes (the spread `...item`
additionally carries the raw fields through unchanged). -/
structure TransformedArticle where
  link : String
  pubDate : String
  description : String
  source : String
  author : Option String
  category : String
  id : String
deriving DecidableEq

/-- `transformArticle(item)` (utils module lines 171-197).
`Math.random().toString()` and `new Date().toISOString()` are platform
primitives; their draws at the call are the explicit parameters `randomId`
and `nowIso`. -/
def transformArticle (randomId nowIso : String) (item : FeedItem) : TransformedArticle :=
  let authorName :=
    match item.author with
    | none => ""
    | some (.str s) => s
    | some (.obj nm) => jsOrS nm ""
  let firstTag := jsOrS item.tags.head? ""
  let tagLower := lowerStr firstTag
  let category :=
    if jsIncludes tagLower "transaction" then "transaction"
    else if jsIncludes tagLower "availab" then "availabilities"
    else if jsIncludes tagLower "people" then "people"
    else "relevant"
  { link := jsOrS item.url (jsOrS item.link ""),
    pubDate := jsOrS item.date_published (jsOrS item.pubDate nowIso),
    description := jsOrS item.content_text (jsOrS item.content_html (jsOrS item.description "")),
    source := jsOrS item.source (jsOrS item.publisher (jsOrS (some authorName) "Unknown")),
    author := if authorName = "" then none else some authorName,
    category := category,
    id := jsOrS item.id (jsOrS item.link randomId) }

/-- A record carrying none of the identifier-bearing fields: no `id`, no
`url`, no `link`. -/
def itemWithoutIdOrLink : FeedItem :=
  { author := none, tags := [], url := none, link := none, date_published := none,
    pubDate := none, content_text := none, content_html := none, description := none,
    source := none, publisher := none, id := none }

end Utils

namespace StaticBuild

/-- An article of the static build, as far as its deduplication reads it: the
stable identifier plus payload it must carry through unchanged. -/
structure NormItem where
  id : String
  title : String
deriving DecidableEq

/-- `new Set(existingArticles.map(a => a.id))` (buildStaticRSS line 38): the
previously known identifiers. -/
def existingGuids (existing : List NormItem) : List String :=
  existing.map (fun a => a.id)

/-- The deduplication filter of buildStaticRSS (line 74):
`filteredNewItems.filter(item => !existingGuids.has(item.id))`. -/
def dedupeNewItems (filteredNewItems : List NormItem) (guids : List String) : List NormItem :=
  filteredNewItems.filter (fun item => !(guids.contains item.id))

end StaticBuild

section Fixtures

open Playwright Fetcher Utils StaticBuild

/-- C1 fixture: an enabled feed whose breaker is open. -/
def c1Feed : Fetcher.FeedConfig :=
  ⟨"https://blocked.example/rss", "Blocked Feed", some true⟩

/-- C1 fixture: a breaker table blocking that feed after three failures. -/
def c1Breaker : Fetcher.BreakerTable :=
  fun u =>
    if u = "https://blocked.example/rss" then some ⟨3, 7200000000, some "HTTP 403", none⟩
    else none

/-- C2 fixture: an allowlisted feed URL. -/
def c2Url : String := "https://connectcre.com/feed"

/-- C2 fixture: empty persistent state. -/
def c2State : Playwright.PWState :=
  ⟨fun _ => none, fun _ => none, fun _ => none⟩

/-- C2 fixture: a session whose page never renders feed-shaped content, so
every call runs (and consumes) a session yet caches nothing. -/
def c2Oracle : Playwright.SessionOracle :=
  ⟨Except.ok (), "", "<p>hi</p>", "", none, Except.ok (), "", [], []⟩

/-- C2 fixture: a session whose initial navigation throws. -/
def c2FailOracle : Playwright.SessionOracle :=
  ⟨Except.error "boom", "", "", "", none, Except.ok (), "", [], []⟩

/-- C2 fixture: a state whose ledger already holds today's ten runs. -/
def c2FullState : Playwright.PWState :=
  ⟨fun _ => none, fun _ => none,
    fun d => if d = "connectcre.com" then some ⟨"2026-02-03", 10⟩ else none⟩

/-- C3 fixture: empty persistent state. -/
def c3State : Playwright.PWState :=
  ⟨fun _ => none, fun _ => none, fun _ => none⟩

/-- C3 fixture: a session that fails at navigation (never consulted on a
cache hit). -/
def c3Oracle : Playwright.SessionOracle :=
  ⟨Except.error "net::ERR_FAILED", "", "", "", none, Except.ok (), "", [], []⟩

/-- C3 fixture: a cache holding one unexpired entry. -/
def c3Cache : Playwright.FeedCache :=
  fun u => if u = "https://connectcre.com/news/feed" then some ⟨"C", 0, 10⟩ else none

/-- C4 fixture: a breaker table with two recorded failures for one source. -/
def c4Breaker : Fetcher.BreakerTable :=
  fun u => if u = "https://source.example/rss" then some ⟨2, 0, none, none⟩ else none

/-- C4 fixture: an error-free pipeline result that returned zero articles. -/
def c4EmptySuccess : Fetcher.PipelineResult :=
  ⟨"https://source.example/rss", "Source", [], 0, none⟩

/-- C4 witness fixture: a breaker entry with stale failures. -/
def c4wBreaker : Fetcher.BreakerTable :=
  fun u => if u = "https://w.example/rss" then some ⟨2, 123, some "old", none⟩ else none

/-- C4 witness fixture: a successful result with one article. -/
def c4wSuccess : Fetcher.PipelineResult :=
  ⟨"https://w.example/rss", "W", [⟨"a1"⟩], 1, none⟩

/-- C4 witness fixture: a failing result for the same source. -/
def c4wFailure : Fetcher.PipelineResult :=
  ⟨"https://w.example/rss", "W", [], 0, some "boom"⟩

/-- C6 fixture: the 403 body of the spec's scenario — it contains "just a
moment" and "cf-browser-verification" but is not doctype-shaped. -/
def c6Body : String :=
  "<html><body>Just a moment... cf-browser-verification ray id 123</body></html>"

/-- C7 fixture: empty persistent state. -/
def c7State : Playwright.PWState :=
  ⟨fun _ => none, fun _ => none, fun _ => none⟩

/-- C7 fixture: an allowlisted feed URL. -/
def c7Url : String := "https://connectcre.com/feed"

/-- C7 fixture: a session whose initial navigation throws. -/
def c7FailOracle : Playwright.SessionOracle :=
  ⟨Except.error "net::ERR_TIMED_OUT", "", "", "", none, Except.ok (), "", [],
    [⟨"cf_clearance", "token123"⟩]⟩

/-- C7 fixture: a session that navigates fine but renders non-feed content,
observing one clearance cookie. -/
def c7OkOracle : Playwright.SessionOracle :=
  ⟨Except.ok (), "", "<p>x</p>", "", none, Except.ok (), "", [],
    [⟨"cf_clearance", "tok"⟩]⟩

/-- C7 fixture: the cookie store the successful session leaves behind. -/
def c7SavedStore : Playwright.CookieStore :=
  fun d => if d = "connectcre.com" then some ⟨[⟨"cf_clearance", "tok"⟩], 7⟩ else none

/-- C10 fixture: empty persistent state. -/
def c10State : Playwright.PWState :=
  ⟨fun _ => none, fun _ => none, fun _ => none⟩

/-- C10 fixture: an allowlisted feed URL. -/
def c10Url : String := "https://www.bizjournals.com/feeds/news.rss"

/-- C10 fixture: an arbitrary session. -/
def c10Oracle : Playwright.SessionOracle :=
  ⟨Except.ok (), "", "<rss>items</rss>", "", none, Except.ok (), "", [], []⟩

end Fixtures

/-! ## Helper lemmas -/

/-- `listContainsSub` decides contiguous containment. -/
theorem listContainsSub_iff (needle hay : List Char) :
    listContainsSub needle hay = true ↔ needle <:+: hay := by
  induction hay with
  | nil => simp [listContainsSub, List.isEmpty_iff, List.infix_nil]
  | cons a t ih =>
      simp [listContainsSub, List.infix_cons_iff, List.isPrefixOf_iff_prefix, ih]

/-- `jsIncludes` decides substring containment on the underlying characters. -/
theorem jsIncludes_iff (s sub : String) :
    jsIncludes s sub = true ↔ sub.toList <:+: s.toList :=
  listContainsSub_iff _ _

/-- The lowercased string's characters are the lowercased characters. -/
theorem lowerStr_toList (s : String) : (lowerStr s).toList = lowerChars s := rfl

/-- The empty body contains no indicator keyword. -/
theorem not_hasIndicator_empty : ¬ Playwright.HasIndicator "" := by
  rintro ⟨kw, hkw, hinf⟩
  have h0 : lowerChars "" = [] := rfl
  rw [h0] at hinf
  have hnil : kw.toList = [] := List.infix_nil.mp hinf
  simp only [Playwright.cfIndicators, List.mem_cons, List.not_mem_nil, or_false] at hkw
  rcases hkw with rfl | rfl | rfl | rfl | rfl | rfl | rfl | rfl <;> exact absurd hnil (by decide)

/-- A blocked entry surviving the success half of the breaker update was
already in the table. -/
theorem breakerAfterSuccess_of_blocked (cb : Fetcher.BreakerTable)
    (r : Fetcher.PipelineResult) (u : String) (s' : Fetcher.CircuitBreakerState)
    (h : Fetcher.breakerAfterSuccess cb r u = some s')
    (hb : s'.blockedUntil ≠ 0) : cb u = some s' := by
  unfold Fetcher.breakerAfterSuccess at h
  by_cases he : r.articles.isEmpty
  · rw [if_pos he] at h
    exact h
  · rw [if_neg he] at h
    cases hcb : cb r.feedUrl with
    | none =>
        rw [hcb] at h
        exact h
    | some s =>
        rw [hcb] at h
        simp only [] at h
        by_cases hu : u = r.feedUrl
        · rw [if_pos hu] at h
          injection h with h
          subst h
          exact absurd rfl hb
        · rw [if_neg hu] at h
          exact h

/-! ## Claim C1 -/

/-- C1: the claim says a source whose breaker is blocked (`blockedUntil >
now`) fails fast with `CircuitOpen` and no network I/O.  The code of
`fetchAllRSSArticles` contradicts this: the feed list handed to the pipeline
is `enabledFeeds`, computed from the `enabled` flags alone — the breaker
table is never consulted before fetching — and the result statuses the
integration layer produces are only "ok" and "error".  Concretely, a feed
blocked until time 7200000000 is still in the fetched list at time 1000. -/
theorem c1_blocked_feed_still_attempted :
    c1Breaker "https://blocked.example/rss" = some ⟨3, 7200000000, some "HTTP 403", none⟩ ∧
    (1000 : Nat) < 7200000000 ∧
    Fetcher.enabledFeeds [c1Feed] = [c1Feed] ∧
    (∀ r : Fetcher.PipelineResult,
      Fetcher.resultStatus r = "ok" ∨ Fetcher.resultStatus r = "error") := by
  refine ⟨rfl, by decide, rfl, ?_⟩
  intro r
  cases hr : r.error <;> simp [Fetcher.resultStatus, hr]

/-! ## Claim C4 -/

/-- C4 counterexample: an error-free (status "ok") pipeline result with zero
articles leaves an existing breaker entry untouched — `failureCount` stays 2
instead of resetting to 0, because the reset sits inside the per-article
loop. -/
theorem c4_success_reset_counterexample :
    Fetcher.resultStatus c4EmptySuccess = "ok" ∧
    Fetcher.applyBreakerUpdate c4Breaker 1000 c4EmptySuccess "https://source.example/rss" =
      some ⟨2, 0, none, none⟩ :=
  ⟨rfl, rfl⟩

/-- C4 (amended): a successful fetch that returned at least one article
resets an existing entry's `failureCount` to 0 and clears `blockedUntil`; a
successful fetch with zero articles leaves the table unchanged; and any
nonzero `blockedUntil` in the updated table was either just set to
`now + 24h` with `failureCount ≥ 3` or inherited unchanged from the previous
table. -/
theorem c4_breaker_update_amended :
    (∀ (cb : Fetcher.BreakerTable) (now : Nat) (r : Fetcher.PipelineResult)
        (s : Fetcher.CircuitBreakerState),
        r.error = none → r.articles ≠ [] → cb r.feedUrl = some s →
        Fetcher.applyBreakerUpdate cb now r r.feedUrl =
          some { s with failureCount := 0, blockedUntil := 0 }) ∧
    (∀ (cb : Fetcher.BreakerTable) (now : Nat) (r : Fetcher.PipelineResult),
        r.error = none → r.articles = [] →
        Fetcher.applyBreakerUpdate cb now r = cb) ∧
    (∀ (cb : Fetcher.BreakerTable) (now : Nat) (r : Fetcher.PipelineResult)
        (u : String) (s' : Fetcher.CircuitBreakerState),
        Fetcher.applyBreakerUpdate cb now r u = some s' →
        s'.blockedUntil ≠ 0 →
        (Fetcher.MAX_FAILURES_BEFORE_BLOCK ≤ s'.failureCount ∧
          s'.blockedUntil = now + Fetcher.BLOCKED_COOLDOWN_MS) ∨
        (∃ s, cb u = some s ∧ s'.blockedUntil = s.blockedUntil)) := by
  refine ⟨?_, ?_, ?_⟩
  · intro cb now r s herr hart hs
    have hemp : r.articles.isEmpty = false := by
      simp [List.isEmpty_iff, hart]
    simp [Fetcher.applyBreakerUpdate, Fetcher.breakerAfterSuccess, herr, hemp, hs]
  · intro cb now r herr hart
    funext u
    simp [Fetcher.applyBreakerUpdate, Fetcher.breakerAfterSuccess, herr, hart]
  · intro cb now r u s' h hb
    simp only [Fetcher.applyBreakerUpdate] at h
    cases herr : r.error with
    | none =>
        rw [herr] at h
        exact Or.inr ⟨s', breakerAfterSuccess_of_blocked cb r u s' h hb, rfl⟩
    | some msg =>
        rw [herr] at h
        simp only [] at h
        by_cases hu : u = r.feedUrl
        · rw [if_pos hu] at h
          cases hgd : Fetcher.breakerAfterSuccess cb r r.feedUrl with
          | none =>
              rw [hgd] at h
              simp only [Option.getD_none] at h
              rw [if_neg (by decide)] at h
              injection h with h
              subst h
              exact absurd rfl hb
          | some t =>
              rw [hgd] at h
              simp only [Option.getD_some] at h
              by_cases hcnt : Fetcher.MAX_FAILURES_BEFORE_BLOCK ≤ t.failureCount + 1
              · rw [if_pos hcnt] at h
                injection h with h
                subst h
                exact Or.inl ⟨hcnt, rfl⟩
              · rw [if_neg hcnt] at h
                injection h with h
                subst h
                refine Or.inr ⟨t, ?_, rfl⟩
                rw [hu]
                exact breakerAfterSuccess_of_blocked cb r r.feedUrl t hgd hb
        · rw [if_neg hu] at h
          exact Or.inr ⟨s', breakerAfterSuccess_of_blocked cb r u s' h hb, rfl⟩

/-- C4 witness: the amended theorem evaluated on concrete tables — a
one-article success resets the entry ⟨2, 123⟩ to ⟨0, 0⟩, a zero-article
success leaves the table untouched, and the third failure blocks the source
until 50 + 24h = 86400050. -/
theorem c4_breaker_update_witness :
    (Fetcher.applyBreakerUpdate c4wBreaker 50 c4wSuccess "https://w.example/rss" =
      some ⟨0, 0, some "old", none⟩) ∧
    (Fetcher.applyBreakerUpdate c4wBreaker 50 ⟨"https://other.example", "O", [], 0, none⟩ =
      c4wBreaker) ∧
    ((Fetcher.MAX_FAILURES_BEFORE_BLOCK ≤ (3 : Nat) ∧
        (86400050 : Nat) = 50 + Fetcher.BLOCKED_COOLDOWN_MS) ∨
      (∃ s, c4wBreaker "https://w.example/rss" = some s ∧
        (86400050 : Nat) = s.blockedUntil)) := by
  refine ⟨?_, ?_, ?_⟩
  · exact c4_breaker_update_amended.1 c4wBreaker 50 c4wSuccess
      ⟨2, 123, some "old", none⟩ rfl (by decide) rfl
  · exact c4_breaker_update_amended.2.1 c4wBreaker 50
      ⟨"https://other.example", "O", [], 0, none⟩ rfl rfl
  · exact c4_breaker_update_amended.2.2 c4wBreaker 50 c4wFailure "https://w.example/rss"
      ⟨3, 86400050, some "boom", none⟩ rfl (by decide)

/-! ## Claim C5 -/

/-- C5: the claim says `transformArticle` is deterministic — the identifier
involves no randomness.  The code falls back to `Math.random().toString()`
when the record carries neither an `id` nor a `link`: two evaluations of the
same input with different random draws yield different identifiers. -/
theorem c5_random_identifier_on_missing_link :
    (Utils.transformArticle "0.12345" "2026-02-03T08:00:00.000Z" Utils.itemWithoutIdOrLink).id =
      "0.12345" ∧
    (Utils.transformArticle "0.6789" "2026-02-03T08:00:00.000Z" Utils.itemWithoutIdOrLink).id =
      "0.6789" ∧
    ("0.12345" : String) ≠ "0.6789" :=
  ⟨rfl, rfl, by decide⟩

/-! ## Claim C8 -/

/-- C8: deduplication against previously known identifiers is a pure set
difference — the kept list is a sublist of the fresh articles containing
exactly those whose identifier is not among the known GUIDs, each carried
through unchanged; an already-known identifier is dropped entirely. -/
theorem c8_dedupe_set_difference (fresh existing : List StaticBuild.NormItem)
    (guids : List String) :
    List.Sublist (StaticBuild.dedupeNewItems fresh guids) fresh ∧
    (∀ a, a ∈ StaticBuild.dedupeNewItems fresh guids ↔ a ∈ fresh ∧ a.id ∉ guids) ∧
    (∀ a, a ∈ StaticBuild.dedupeNewItems fresh (StaticBuild.existingGuids existing) ↔
      a ∈ fresh ∧ ∀ e ∈ existing, e.id ≠ a.id) := by
  refine ⟨List.filter_sublist _, ?_, ?_⟩
  · intro a
    simp [StaticBuild.dedupeNewItems]
  · intro a
    simp [StaticBuild.dedupeNewItems, StaticBuild.existingGuids]

/-! ## Claim C6 -/

/-- C6: `isCloudflareChallenge` recognizes a challenge exactly when the body
contains an indicator keyword AND (the body is challenge-shaped HTML OR the
status is 403); in particular the spec's scenario — a 403 whose body
contains "just a moment" and "cf-browser-verification" — is detected, and
the fetch stage (modelled from the spec, which is not under src/ for this
part) routes it to the bypass path rather than the breaker-failure path. -/
theorem c6_challenge_detection :
    (∀ body status, Playwright.isCloudflareChallenge body status = true ↔
      (Playwright.HasIndicator body ∧
        (Playwright.ChallengeShapedHTML body ∨ status = some 403))) ∧
    Playwright.isCloudflareChallenge c6Body (some 403) = true ∧
    Playwright.fetchStageRoute "https://connectcre.com/feed" 403 c6Body =
      Playwright.FetchRoute.bypass := by
  refine ⟨?_, by decide, by decide⟩
  intro body status
  by_cases hb : body = ""
  · subst hb
    constructor
    · intro h
      simp [Playwright.isCloudflareChallenge] at h
    · rintro ⟨hi, -⟩
      exact absurd hi not_hasIndicator_empty
  · simp only [Playwright.isCloudflareChallenge, if_neg hb, Bool.and_eq_true,
      Bool.or_eq_true, List.any_eq_true, beq_iff_eq]
    unfold Playwright.HasIndicator Playwright.ChallengeShapedHTML
    simp only [jsIncludes_iff, lowerStr_toList]
    tauto

/-- C9: `isAllowlisted` holds exactly when some allowlisted domain occurs as
a substring of the URL's www-stripped hostname; consequently the distinct
registrable hostname `connectcre.com.evil.example`, which merely embeds
`connectcre.com`, passes the allowlist check. -/
theorem c9_allowlist_substring :
    (∀ url, Playwright.isAllowlisted url = true ↔
      ∃ d ∈ Playwright.PLAYWRIGHT_ALLOWLIST,
        d.toList <:+: (Playwright.getDomain url).toList) ∧
    Playwright.getDomain "https://www.connectcre.com.evil.example/feed" =
      "connectcre.com.evil.example" ∧
    Playwright.isAllowlisted "https://connectcre.com.evil.example/feed" = true ∧
    "connectcre.com.evil.example" ∉ Playwright.PLAYWRIGHT_ALLOWLIST := by
  refine ⟨?_, by decide, by decide, by decide⟩
  intro url
  simp [Playwright.isAllowlisted, List.any_eq_true, jsIncludes_iff]

/-! ## Claim C3 -/

/-- C3 counterexample: the claim quantifies over every URL and every call,
but (1) a non-allowlisted URL with a fresh cache entry is rejected by the
allowlist check, (2) an allowlisted URL whose call carries a non-challenge
`originalResponse` is rejected as not-a-challenge before the cache is
consulted, and (3) a stored empty string is falsy (`if (cached)`), so the
call falls through to the session instead of serving the cache. -/
theorem c3_cache_roundtrip_counterexample :
    (Playwright.playwrightFetchRSS
        { c3State with cache :=
            (Playwright.setCachedContent c3State.cache "https://example.com/feed"
              "SOME CONTENT" 0) }
        "https://example.com/feed" none c3Oracle 1 "2026-02-03").1 =
      Playwright.PWResult.notAllowlisted "example.com" ∧
    (Playwright.playwrightFetchRSS
        { c3State with cache :=
            (Playwright.setCachedContent c3State.cache "https://connectcre.com/news/feed"
              "SOME CONTENT" 0) }
        "https://connectcre.com/news/feed" (some ⟨200, "<html>plain page</html>"⟩)
        c3Oracle 1 "2026-02-03").1 =
      Playwright.PWResult.notAChallenge ∧
    (Playwright.playwrightFetchRSS
        { c3State with cache :=
            (Playwright.setCachedContent c3State.cache "https://connectcre.com/news/feed"
              "" 0) }
        "https://connectcre.com/news/feed" none c3Oracle 1 "2026-02-03").1 =
      Playwright.PWResult.fetchError "net::ERR_FAILED" :=
  ⟨by decide, by decide, by decide⟩

/-- C3 (amended): for every allowlisted URL whose call passes the challenge
confirmation (no `originalResponse`, or one that is a challenge), storing
nonempty content and calling again within the 12-hour TTL returns success
with exactly that content, marked as from the cache, with the whole state —
including the rate-limit ledger — unchanged; and a cache entry is served
only while `now < expiresAt`, so an entry whose expiry has passed is never
served. -/
theorem c3_cache_roundtrip_amended :
    (∀ (st : Playwright.PWState) (url content : String)
        (orig : Option Playwright.OrigResponse) (o : Playwright.SessionOracle)
        (now later : Nat) (today : String),
        Playwright.isAllowlisted url = true →
        (orig = none ∨ ∃ r, orig = some r ∧
          Playwright.isCloudflareChallenge r.body (some r.status) = true) →
        content ≠ "" →
        later < now + Playwright.CACHE_TTL_MS →
        Playwright.playwrightFetchRSS
            { st with cache := Playwright.setCachedContent st.cache url content now }
            url orig o later today =
          (Playwright.PWResult.success content true,
            { st with cache := Playwright.setCachedContent st.cache url content now })) ∧
    (∀ (cache : Playwright.FeedCache) (url : String) (now : Nat) (c : String),
        Playwright.getCachedContent cache url now = some c →
        ∃ e, cache url = some e ∧ e.content = c ∧ now < e.expiresAt) := by
  constructor
  · intro st url content orig o now later today hA horig hne hTTL
    have hhit : Playwright.getCachedContent
        (Playwright.setCachedContent st.cache url content now) url later = some content := by
      simp [Playwright.getCachedContent, Playwright.setCachedContent, hTTL]
    have hmain : Playwright.pwAfterChecks
        { st with cache := Playwright.setCachedContent st.cache url content now }
        url o later today =
        (Playwright.PWResult.success content true,
          { st with cache := Playwright.setCachedContent st.cache url content now }) := by
      unfold Playwright.pwAfterChecks
      dsimp only
      rw [hhit]
      dsimp only
      rw [if_neg hne]
    rcases horig with rfl | ⟨r, rfl, hch⟩
    · simpa [Playwright.playwrightFetchRSS, hA] using hmain
    · simpa [Playwright.playwrightFetchRSS, hA, hch] using hmain
  · intro cache url now c h
    unfold Playwright.getCachedContent at h
    cases hc : cache url with
    | none =>
        rw [hc] at h
        cases h
    | some e =>
        rw [hc] at h
        dsimp only at h
        by_cases ht : now < e.expiresAt
        · rw [if_pos ht] at h
          injection h with h
          exact ⟨e, rfl, h, ht⟩
        · rw [if_neg ht] at h
          cases h

/-- C3 witness: the amended round trip on a concrete allowlisted URL, and
the never-serve-expired direction on a concrete cache. -/
theorem c3_cache_roundtrip_witness :
    (Playwright.playwrightFetchRSS
        { c3State with cache :=
            (Playwright.setCachedContent c3State.cache "https://connectcre.com/news/feed"
              "CACHED" 0) }
        "https://connectcre.com/news/feed" none c3Oracle 1 "2026-02-03" =
      (Playwright.PWResult.success "CACHED" true,
        { c3State with cache :=
            (Playwright.setCachedContent c3State.cache "https://connectcre.com/news/feed"
              "CACHED" 0) })) ∧
    (∃ e, c3Cache "https://connectcre.com/news/feed" = some e ∧
      e.content = "C" ∧ (5 : Nat) < e.expiresAt) := by
  constructor
  · exact c3_cache_roundtrip_amended.1 c3State "https://connectcre.com/news/feed" "CACHED"
      none c3Oracle 0 1 "2026-02-03" (by decide) (Or.inl rfl) (by decide) (by decide)
  · exact c3_cache_roundtrip_amended.2 c3Cache "https://connectcre.com/news/feed" 5 "C"
      (by decide)

/-! ## Claim C7 -/

/-- C7 counterexample: a bypass session that consumed a rate-limit unit (so
a session was indeed run) but aborted with a navigation exception persists
no cookies for the domain, refuting "persisted regardless of outcome". -/
theorem c7_cookie_persist_counterexample :
    (Playwright.playwrightFetchRSS c7State c7Url none c7FailOracle 5 "2026-02-03").1 =
      Playwright.PWResult.fetchError "net::ERR_TIMED_OUT" ∧
    ((Playwright.playwrightFetchRSS c7State c7Url none c7FailOracle 5 "2026-02-03").2).cookies
      "connectcre.com" = none ∧
    ((Playwright.playwrightFetchRSS c7State c7Url none c7FailOracle 5 "2026-02-03").2).limits
      "connectcre.com" = some ⟨"2026-02-03", 1⟩ :=
  ⟨by decide, by decide, by decide⟩

/-- C7 (amended): whenever the navigation phase completes and
`fetchWithPlaywright` returns content — which covers sessions ending in
success, challenge-unsolved and not-a-feed — the cookies observed by the
session are persisted under the URL's domain, other domains are untouched,
and a full `playwrightFetchRSS` call ends with exactly that cookie store; a
session aborted by a navigation exception persists nothing (see the
counterexample). -/
theorem c7_cookie_persist_amended :
    (∀ (store : Playwright.CookieStore) (url : String) (o : Playwright.SessionOracle)
        (now : Nat) (content : String) (store' : Playwright.CookieStore),
        Playwright.fetchWithPlaywright store url o now = Except.ok (content, store') →
        store' (Playwright.getDomain url) = some ⟨o.finalCookies, now⟩ ∧
          ∀ d, d ≠ Playwright.getDomain url → store' d = store d) ∧
    (∀ (st : Playwright.PWState) (url : String) (o : Playwright.SessionOracle)
        (now : Nat) (today content : String) (cookies' : Playwright.CookieStore),
        Playwright.isAllowlisted url = true →
        Playwright.getCachedContent st.cache url now = none →
        Playwright.checkRateLimit st.limits today (Playwright.getDomain url) = true →
        Playwright.fetchWithPlaywright st.cookies url o now = Except.ok (content, cookies') →
        ((Playwright.playwrightFetchRSS st url none o now today).2).cookies = cookies') := by
  constructor
  · intro store url o now content store' h
    unfold Playwright.fetchWithPlaywright at h
    cases hnav : o.initialNav with
    | error e =>
        rw [hnav] at h
        exact absurd h (by simp)
    | ok u =>
        rw [hnav] at h
        dsimp only at h
        split at h
        · exact absurd h (by simp)
        · rw [Except.ok.injEq, Prod.mk.injEq] at h
          obtain ⟨-, hs⟩ := h
          subst hs
          refine ⟨by simp, ?_⟩
          intro d hd
          simp [hd]
  · intro st url o now today content cookies' hA hc hchk hfetch
    have h1 : Playwright.playwrightFetchRSS st url none o now today =
        Playwright.pwAfterChecks st url o now today := by
      simp [Playwright.playwrightFetchRSS, hA]
    rw [h1]
    unfold Playwright.pwAfterChecks
    rw [hc]
    unfold Playwright.pwRateAndSession
    dsimp only
    rw [if_pos hchk]
    rw [hfetch]
    dsimp only
    split
    · rfl
    · split
      · rfl
      · rfl

/-- C7 witness: on a session that renders non-feed content, the whole cookie
set of the session is saved under connectcre.com with the save time, other
domains stay empty, and the call's final state carries that store. -/
theorem c7_cookie_persist_witness :
    (c7SavedStore (Playwright.getDomain c7Url) = some ⟨c7OkOracle.finalCookies, 7⟩ ∧
      ∀ d, d ≠ Playwright.getDomain c7Url → c7SavedStore d = c7State.cookies d) ∧
    ((Playwright.playwrightFetchRSS c7State c7Url none c7OkOracle 7 "2026-02-03").2).cookies =
      c7SavedStore := by
  constructor
  · exact c7_cookie_persist_amended.1 c7State.cookies c7Url c7OkOracle 7 "<p>x</p>"
      c7SavedStore rfl
  · exact c7_cookie_persist_amended.2 c7State c7Url c7OkOracle 7 "2026-02-03" "<p>x</p>"
      c7SavedStore (by decide) (by decide) (by decide) rfl

/-! ## Claim C10 -/

/-- The rate-limit-and-session phase never produces the not-a-challenge
rejection. -/
theorem pwRateAndSession_fst_ne (st : Playwright.PWState) (url : String)
    (o : Playwright.SessionOracle) (now : Nat) (today : String) :
    (Playwright.pwRateAndSession st url o now today).1 ≠
      Playwright.PWResult.notAChallenge := by
  unfold Playwright.pwRateAndSession
  dsimp only
  split
  · split
    · simp
    · split
      · simp
      · split
        · simp
        · simp
  · simp

/-- The cache-and-session phase never produces the not-a-challenge
rejection. -/
theorem pwAfterChecks_fst_ne (st : Playwright.PWState) (url : String)
    (o : Playwright.SessionOracle) (now : Nat) (today : String) :
    (Playwright.pwAfterChecks st url o now today).1 ≠
      Playwright.PWResult.notAChallenge := by
  unfold Playwright.pwAfterChecks
  split
  · split
    · exact pwRateAndSession_fst_ne st url o now today
    · simp
  · exact pwRateAndSession_fst_ne st url o now today

/-- In every branch of the rate-and-session phase the ledger either stays
what it was or — only when the rate-limit check passed — is the incremented
ledger. -/
theorem pwRateAndSession_limits (st : Playwright.PWState) (url : String)
    (o : Playwright.SessionOracle) (now : Nat) (today : String) :
    ((Playwright.pwRateAndSession st url o now today).2).limits = st.limits ∨
    (Playwright.checkRateLimit st.limits today (Playwright.getDomain url) = true ∧
      ((Playwright.pwRateAndSession st url o now today).2).limits =
        Playwright.incrementRateLimit st.limits today (Playwright.getDomain url)) := by
  unfold Playwright.pwRateAndSession
  dsimp only
  split
  case isTrue h =>
    right
    refine ⟨h, ?_⟩
    split
    · rfl
    · split
      · rfl
      · split
        · rfl
        · rfl
  case isFalse h => exact Or.inl rfl

/-- The same ledger dichotomy for the cache-and-session phase. -/
theorem pwAfterChecks_limits (st : Playwright.PWState) (url : String)
    (o : Playwright.SessionOracle) (now : Nat) (today : String) :
    ((Playwright.pwAfterChecks st url o now today).2).limits = st.limits ∨
    (Playwright.checkRateLimit st.limits today (Playwright.getDomain url) = true ∧
      ((Playwright.pwAfterChecks st url o now today).2).limits =
        Playwright.incrementRateLimit st.limits today (Playwright.getDomain url)) := by
  unfold Playwright.pwAfterChecks
  split
  · split
    · exact pwRateAndSession_limits st url o now today
    · exact Or.inl rfl
  · exact pwRateAndSession_limits st url o now today

/-- The same ledger dichotomy for a full `playwrightFetchRSS` call. -/
theorem playwrightFetchRSS_limits (st : Playwright.PWState) (url : String)
    (orig : Option Playwright.OrigResponse) (o : Playwright.SessionOracle)
    (now : Nat) (today : String) :
    ((Playwright.playwrightFetchRSS st url orig o now today).2).limits = st.limits ∨
    (Playwright.checkRateLimit st.limits today (Playwright.getDomain url) = true ∧
      ((Playwright.playwrightFetchRSS st url orig o now today).2).limits =
        Playwright.incrementRateLimit st.limits today (Playwright.getDomain url)) := by
  unfold Playwright.playwrightFetchRSS
  dsimp only
  split
  · exact Or.inl rfl
  · cases orig with
    | none => exact pwAfterChecks_limits st url o now today
    | some r =>
        dsimp only
        split
        · exact Or.inl rfl
        · exact pwAfterChecks_limits st url o now today

/-- A passed rate-limit check plus a ledger bounded by the daily cap keeps
the incremented ledger bounded by the cap. -/
theorem incrementRateLimit_le (limits : Playwright.RateLimitStore) (today domain : String)
    (hchk : Playwright.checkRateLimit limits today domain = true)
    (hall : ∀ d r, limits d = some r → r.count ≤ Playwright.MAX_RUNS_PER_DOMAIN_PER_DAY) :
    ∀ d r, Playwright.incrementRateLimit limits today domain d = some r →
      r.count ≤ Playwright.MAX_RUNS_PER_DOMAIN_PER_DAY := by
  intro d r h
  unfold Playwright.incrementRateLimit at h
  by_cases hd : d = domain
  · rw [if_pos hd] at h
    unfold Playwright.checkRateLimit at hchk
    cases hl : limits domain with
    | none =>
        rw [hl] at h
        injection h with h
        subst h
        show (1 : Nat) ≤ Playwright.MAX_RUNS_PER_DOMAIN_PER_DAY
        decide
    | some r0 =>
        rw [hl] at h hchk
        dsimp only at h hchk
        by_cases hdate : (r0.date != today) = true
        · rw [if_pos hdate] at h
          injection h with h
          subst h
          show (1 : Nat) ≤ Playwright.MAX_RUNS_PER_DOMAIN_PER_DAY
          decide
        · rw [if_neg hdate] at h
          rw [if_neg hdate] at hchk
          injection h with h
          subst h
          have hlt : r0.count < Playwright.MAX_RUNS_PER_DOMAIN_PER_DAY :=
            of_decide_eq_true hchk
          show r0.count + 1 ≤ Playwright.MAX_RUNS_PER_DOMAIN_PER_DAY
          omega
  · rw [if_neg hd] at h
    exact hall d r h

/-! ## Claim C2 -/

/-- C2: the daily bypass quota.  (1) A call for an allowlisted URL that
misses the cache while today's count has reached the cap is rejected as
`RateLimited` with the state unchanged — for every session oracle, so no
browser session is consulted.  (2) A ledger whose counts are all at most 10
stays that way through any call.  (3) A stored record of a different day
passes the check and the next increment restarts the count at 1.  (4) The
unit is consumed before the session runs: a session failing at navigation
still leaves the count incremented.  (5) Concretely, ten session-running
calls from an empty ledger drive connectcre.com's count to exactly 10 and
the eleventh call returns `RateLimited`. -/
theorem c2_daily_rate_limit :
    (∀ (st : Playwright.PWState) (url : String) (o : Playwright.SessionOracle)
        (now : Nat) (today : String) (cnt : Nat),
        Playwright.isAllowlisted url = true →
        Playwright.getCachedContent st.cache url now = none →
        st.limits (Playwright.getDomain url) = some ⟨today, cnt⟩ →
        Playwright.MAX_RUNS_PER_DOMAIN_PER_DAY ≤ cnt →
        Playwright.playwrightFetchRSS st url none o now today =
          (Playwright.PWResult.rateLimited
            ((Playwright.MAX_RUNS_PER_DOMAIN_PER_DAY : Int) - cnt)
            Playwright.MAX_RUNS_PER_DOMAIN_PER_DAY, st)) ∧
    (∀ (st : Playwright.PWState) (url : String) (orig : Option Playwright.OrigResponse)
        (o : Playwright.SessionOracle) (now : Nat) (today : String),
        (∀ d r, st.limits d = some r → r.count ≤ Playwright.MAX_RUNS_PER_DOMAIN_PER_DAY) →
        ∀ d r, ((Playwright.playwrightFetchRSS st url orig o now today).2).limits d = some r →
          r.count ≤ Playwright.MAX_RUNS_PER_DOMAIN_PER_DAY) ∧
    (∀ (limits : Playwright.RateLimitStore) (today domain : String)
        (r : Playwright.RateRecord),
        limits domain = some r → r.date ≠ today →
        Playwright.checkRateLimit limits today domain = true ∧
          Playwright.incrementRateLimit limits today domain domain = some ⟨today, 1⟩) ∧
    (∀ (st : Playwright.PWState) (url : String) (o : Playwright.SessionOracle)
        (now : Nat) (today e : String),
        Playwright.isAllowlisted url = true →
        Playwright.getCachedContent st.cache url now = none →
        Playwright.checkRateLimit st.limits today (Playwright.getDomain url) = true →
        o.initialNav = Except.error e →
        Playwright.playwrightFetchRSS st url none o now today =
          (Playwright.PWResult.fetchError e,
            { st with limits :=
              Playwright.incrementRateLimit st.limits today (Playwright.getDomain url) })) ∧
    ((Playwright.pwIterate c2Url c2Oracle 5 "2026-02-03" 10 c2State).limits "connectcre.com" =
        some ⟨"2026-02-03", 10⟩ ∧
      (Playwright.playwrightFetchRSS
          (Playwright.pwIterate c2Url c2Oracle 5 "2026-02-03" 10 c2State)
          c2Url none c2Oracle 5 "2026-02-03").1 =
        Playwright.PWResult.rateLimited 0 10) := by
  refine ⟨?_, ?_, ?_, ?_, by decide⟩
  · intro st url o now today cnt hA hc hl hge
    have hchk : Playwright.checkRateLimit st.limits today (Playwright.getDomain url) = false := by
      simp [Playwright.checkRateLimit, hl, decide_eq_false_iff_not]
      omega
    simp [Playwright.playwrightFetchRSS, hA, Playwright.pwAfterChecks, hc,
      Playwright.pwRateAndSession, hchk, Playwright.getRateLimitStatus, hl]
  · intro st url orig o now today hall d r h
    rcases playwrightFetchRSS_limits st url orig o now today with heq | ⟨hchk, heq⟩
    · rw [heq] at h
      exact hall d r h
    · rw [heq] at h
      exact incrementRateLimit_le st.limits today (Playwright.getDomain url) hchk hall d r h
  · intro limits today domain r hl hdate
    have hbne : (r.date != today) = true := by simpa using hdate
    constructor
    · simp [Playwright.checkRateLimit, hl, hbne]
    · simp [Playwright.incrementRateLimit, hl, hbne]
  · intro st url o now today e hA hc hchk hnav
    simp [Playwright.playwrightFetchRSS, hA, Playwright.pwAfterChecks, hc,
      Playwright.pwRateAndSession, hchk, Playwright.fetchWithPlaywright, hnav]

/-- C2 witness: an eleventh same-day call on the full ledger is rejected
with the state unchanged; a stale record from 2026-02-03 passes the check on
2026-02-04 and restarts at 1; a navigation-failing session still consumes a
unit. -/
theorem c2_daily_rate_limit_witness :
    (Playwright.playwrightFetchRSS c2FullState c2Url none c2Oracle 5 "2026-02-03" =
      (Playwright.PWResult.rateLimited 0 10, c2FullState)) ∧
    (Playwright.checkRateLimit c2FullState.limits "2026-02-04" "connectcre.com" = true ∧
      Playwright.incrementRateLimit c2FullState.limits "2026-02-04" "connectcre.com"
        "connectcre.com" = some ⟨"2026-02-04", 1⟩) ∧
    (Playwright.playwrightFetchRSS c2State c2Url none c2FailOracle 5 "2026-02-03" =
      (Playwright.PWResult.fetchError "boom",
        { c2State with limits :=
            (Playwright.incrementRateLimit c2State.limits "2026-02-03"
              (Playwright.getDomain c2Url)) })) := by
  refine ⟨?_, ?_, ?_⟩
  · simpa using c2_daily_rate_limit.1 c2FullState c2Url c2Oracle 5 "2026-02-03" 10
      (by decide) (by decide) (by decide) (by decide)
  · exact c2_daily_rate_limit.2.2.1 c2FullState.limits "2026-02-04" "connectcre.com"
      ⟨"2026-02-03", 10⟩ (by decide) (by decide)
  · exact c2_daily_rate_limit.2.2.2.1 c2State c2Url c2FailOracle 5 "2026-02-03" "boom"
      (by decide) (by decide) (by decide) rfl

/-- C10: a `playwrightFetchRSS` call without an `originalResponse` skips the
challenge-confirmation step entirely — for every allowlisted URL it is
exactly the cache/rate-limit/session pipeline, and it can never be rejected
with the not-a-challenge error. -/
theorem c10_no_challenge_check_without_original (st : Playwright.PWState) (url : String)
    (o : Playwright.SessionOracle) (now : Nat) (today : String)
    (h : Playwright.isAllowlisted url = true) :
    Playwright.playwrightFetchRSS st url none o now today =
      Playwright.pwAfterChecks st url o now today ∧
    (Playwright.playwrightFetchRSS st url none o now today).1 ≠
      Playwright.PWResult.notAChallenge := by
  have heq : Playwright.playwrightFetchRSS st url none o now today =
      Playwright.pwAfterChecks st url o now today := by
    simp [Playwright.playwrightFetchRSS, h]
  exact ⟨heq, heq ▸ pwAfterChecks_fst_ne st url o now today⟩

/-- C10 witness: the theorem applied to the allowlisted bizjournals feed URL
on a concrete state and session. -/
theorem c10_no_challenge_check_without_original_witness :
    Playwright.playwrightFetchRSS c10State c10Url none c10Oracle 3 "2026-02-03" =
      Playwright.pwAfterChecks c10State c10Url c10Oracle 3 "2026-02-03" ∧
    (Playwright.playwrightFetchRSS c10State c10Url none c10Oracle 3 "2026-02-03").1 ≠
      Playwright.PWResult.notAChallenge :=
  c10_no_challenge_check_without_original c10State c10Url c10Oracle 3 "2026-02-03" (by decide)

end Woodmont
